import Mathlib

/-!
Verification of the PhysixPokitto physics core (Game.h, Physics/Common.h,
Physics/Point.h) via a shallow embedding.

`Number` is `SFixed<15, 16>` from the FixedPoints library: a signed
fixed-point scalar whose internal representation is the real value scaled by
2^16.  The library is external to the repository, so its arithmetic is
modelled from the spec (section 4.1: "exact, deterministic arithmetic with no
platform-dependent rounding"): addition, subtraction and negation are exact on
the scaled integers; multiplication of internals `a` and `b` produces the
64-bit product arithmetically shifted right by 16 bits, i.e. the floor of
`a * b / 2^16`.  For the positive divisor 2^16, Lean's integer division `/`
(euclidean) coincides with that floor division.  The internal value is kept as
an unbounded `Int`; the `int32_t` representable range appears as an explicit
hypothesis where a claim depends on it.
-/

structure Number where
  internal : Int
deriving DecidableEq

/-- `FractionSize` of `SFixed<15, 16>`: 16 fraction bits, scale `2^16 = 65536`. -/
def Number.Scale : Int := 65536

/-- Modelled from the spec: implicit conversion of a non-negative machine
integer to `Number` (the `Number(rand() % width)` construction) scales by 2^16. -/
def Number.ofNat (n : Nat) : Number := ⟨(n : Int) * 65536⟩

/-- Modelled from the spec: conversion of a machine integer to `Number`
(used for the bound `displayWidth - 8` compared against a position). -/
def Number.ofInt (z : Int) : Number := ⟨z * 65536⟩

/-- Modelled from the spec: the two-argument `Number(integer, fraction)`
constructor of the FixedPoints library, `(integer << 16) | fraction`, which for
`0 ≤ fraction < 65536` equals `integer * 65536 + fraction`. -/
def Number.ofParts (integer : Int) (fraction : Nat) : Number :=
  ⟨integer * 65536 + (fraction : Int)⟩

/-- `Number::Epsilon`: the smallest representable positive magnitude, internal 1. -/
def Number.Epsilon : Number := ⟨1⟩

instance : OfNat Number n := ⟨Number.ofNat n⟩

instance : Add Number := ⟨fun a b => ⟨a.internal + b.internal⟩⟩

instance : Sub Number := ⟨fun a b => ⟨a.internal - b.internal⟩⟩

instance : Neg Number := ⟨fun a => ⟨-a.internal⟩⟩

/-- Modelled from the spec: fixed-point multiplication.  The 64-bit product of
the internals carries 32 fraction bits; converting back to 16 fraction bits is
an arithmetic right shift by 16, i.e. floor division by 2^16 (euclidean `/`
for the positive divisor). -/
instance : Mul Number := ⟨fun a b => ⟨a.internal * b.internal / 65536⟩⟩

instance : LT Number := ⟨fun a b => a.internal < b.internal⟩

instance : LE Number := ⟨fun a b => a.internal ≤ b.internal⟩

instance (a b : Number) : Decidable (a < b) :=
  inferInstanceAs (Decidable (a.internal < b.internal))

instance (a b : Number) : Decidable (a ≤ b) :=
  inferInstanceAs (Decidable (a.internal ≤ b.internal))

/-- `NumberU` is `UFixed<16, 16>`: the unsigned companion type.  Modelled from
the spec: same total width (32 bits), internal value is the bit pattern as a
non-negative integer in `[0, 2^32)`. -/
structure NumberU where
  internal : Int
deriving DecidableEq

/-- `fromSigned` (Physics/Common.h): `NumberU::fromInternal(value.getInternal())`.
The `int32_t` internal is handed to the unsigned type unchanged; reading a
negative two's-complement pattern as `uint32_t` adds 2^32, i.e. reduction
modulo 2^32 (Lean's `%` on `Int` with positive modulus yields the
representative in `[0, 2^32)`). -/
def fromSigned (value : Number) : NumberU := ⟨value.internal % 4294967296⟩

/-- `fromUnsigned` (Physics/Common.h): `Number::fromInternal(value.getInternal())`.
A `uint32_t` pattern at or above 2^31 reads back as that value minus 2^32 in
`int32_t` two's complement. -/
def fromUnsigned (value : NumberU) : Number :=
  ⟨if value.internal < 2147483648 then value.internal else value.internal - 4294967296⟩

/-- Point2 (Physics/Point.h): absolute location, two `Number` fields. -/
structure Point2 where
  x : Number
  y : Number
deriving DecidableEq

/-- Modelled from the spec: Vector2 (displacement/velocity/force), two `Number`
fields; the source file Physics/Vector2.h is not in the provided sources. -/
structure Vector2 where
  x : Number
  y : Number
deriving DecidableEq

/-- Modelled from the spec: `Vector2 + Vector2 → Vector2`, componentwise. -/
instance : Add Vector2 := ⟨fun a b => ⟨a.x + b.x, a.y + b.y⟩⟩

/-- Modelled from the spec: unary negation on Vector2, componentwise. -/
instance : Neg Vector2 := ⟨fun a => ⟨-a.x, -a.y⟩⟩

/-- Modelled from the spec: `Vector2 * scalar → Vector2`, componentwise. -/
instance : HMul Vector2 Number Vector2 := ⟨fun v s => ⟨v.x * s, v.y * s⟩⟩

/-- `Point2 += Vector2` (Physics/Point.h declares it; modelled from the spec:
`Point2 + Vector2 → Point2`, componentwise). -/
instance : HAdd Point2 Vector2 Point2 := ⟨fun p v => ⟨p.x + v.x, p.y + v.y⟩⟩

/-- Modelled from the spec: RigidBody (`{position: Point2, velocity: Vector2}`);
the source file Physics/RigidBody.h is not in the provided sources. -/
structure RigidBody where
  position : Point2
  velocity : Vector2
deriving DecidableEq

/-- `Game::CoefficientOfFriction = 0.95`: the constexpr conversion of the
double 0.95 to `SFixed<15,16>` truncates `0.95 * 65536 = 62259.19…` to 62259. -/
def CoefficientOfFriction : Number := ⟨62259⟩

/-- `Game::CoefficientOfGravity = 0.5`: `0.5 * 65536 = 32768` exactly. -/
def CoefficientOfGravity : Number := ⟨32768⟩

/-- `Game::CoefficientOfRestitution = 0.3`: truncates `0.3 * 65536 = 19660.8`
to 19660. -/
def CoefficientOfRestitution : Number := ⟨19660⟩

/-- `Game::RestitutionThreshold = Number::Epsilon * 16` (internal 16). -/
def RestitutionThreshold : Number := Number.Epsilon * (16 : Number)

/-- `Game::InputForce = 0.25`: `0.25 * 65536 = 16384` exactly. -/
def InputForce : Number := ⟨16384⟩

/-- The `Game` state: 8 bodies (`objects[8]`, index 0 is the player), the
gravity flag, the gravity force vector and the stat-rendering flag.  The
display dimensions are owned by the excluded Pokitto layer and appear as
parameters of the operations. -/
structure Game where
  objects : Fin 8 → RigidBody
  gravityEnabled : Bool
  gravitationalForce : Vector2
  statRenderingEnabled : Bool

/-- Gravity phase of `Game::simulatePhysics`:
`if (gravityEnabled) object.velocity += gravitationalForce;`. -/
def gravityPhase (gravityEnabled : Bool) (gravitationalForce : Vector2)
    (velocity : Vector2) : Vector2 :=
  if gravityEnabled then velocity + gravitationalForce else velocity

/-- Friction phase of `Game::simulatePhysics`: with gravity,
`object.velocity.x *= CoefficientOfFriction;` (y untouched); without gravity,
`object.velocity *= CoefficientOfFriction;` (whole vector). -/
def frictionPhase (gravityEnabled : Bool) (velocity : Vector2) : Vector2 :=
  if gravityEnabled then
    { velocity with x := velocity.x * CoefficientOfFriction }
  else
    velocity * CoefficientOfFriction

/-- Horizontal boundary phase of `Game::simulatePhysics`: two sequential `if`s,
the second reading the position and velocity possibly mutated by the first.
`displayWidth` enters as the machine integer `Display::getWidth()`. -/
def collideX (displayWidth : Nat) (position : Point2) (velocity : Vector2) :
    Point2 × Vector2 :=
  let s1 : Number × Number :=
    if position.x < 0 then ((0 : Number), -velocity.x) else (position.x, velocity.x)
  let s2 : Number × Number :=
    if Number.ofInt ((displayWidth : Int) - 8) < s1.1 then
      (Number.ofInt ((displayWidth : Int) - 8), -s1.2)
    else s1
  ({ position with x := s2.1 }, { velocity with x := s2.2 })

/-- Vertical boundary phase with gravity: clamp to the crossed bound, then
`if (velocity.y > RestitutionThreshold) velocity.y = -velocity.y * CoefficientOfRestitution;
else velocity.y = 0;` — two sequential `if`s, the second reading the mutated
state. -/
def collideYGravity (displayHeight : Nat) (position : Point2) (velocity : Vector2) :
    Point2 × Vector2 :=
  let s1 : Number × Number :=
    if position.y < 0 then
      ((0 : Number),
        if RestitutionThreshold < velocity.y then
          (-velocity.y) * CoefficientOfRestitution
        else (0 : Number))
    else (position.y, velocity.y)
  let s2 : Number × Number :=
    if Number.ofInt ((displayHeight : Int) - 8) < s1.1 then
      (Number.ofInt ((displayHeight : Int) - 8),
        if RestitutionThreshold < s1.2 then
          (-s1.2) * CoefficientOfRestitution
        else (0 : Number))
    else s1
  ({ position with y := s2.1 }, { velocity with y := s2.2 })

/-- Vertical boundary phase without gravity: clamp and negate, like the
horizontal walls. -/
def collideYPlain (displayHeight : Nat) (position : Point2) (velocity : Vector2) :
    Point2 × Vector2 :=
  let s1 : Number × Number :=
    if position.y < 0 then ((0 : Number), -velocity.y) else (position.y, velocity.y)
  let s2 : Number × Number :=
    if Number.ofInt ((displayHeight : Int) - 8) < s1.1 then
      (Number.ofInt ((displayHeight : Int) - 8), -s1.2)
    else s1
  ({ position with y := s2.1 }, { velocity with y := s2.2 })

/-- The per-body update of `Game::simulatePhysics`, in the source's exact
order: gravity, friction, horizontal bounds, mode-dependent vertical bounds,
then `object.position += object.velocity;`. -/
def stepBody (gravityEnabled : Bool) (gravitationalForce : Vector2)
    (displayWidth displayHeight : Nat) (object : RigidBody) : RigidBody :=
  let v1 := gravityPhase gravityEnabled gravitationalForce object.velocity
  let v2 := frictionPhase gravityEnabled v1
  let c1 := collideX displayWidth object.position v2
  let c2 :=
    if gravityEnabled then collideYGravity displayHeight c1.1 c1.2
    else collideYPlain displayHeight c1.1 c1.2
  { position := c2.1 + c2.2, velocity := c2.2 }

/-- `Game::simulatePhysics` (the spec's `step()`): update every body.  The
source loops over array indices in ascending order; bodies do not interact, so
the pointwise update is the same function. -/
def simulatePhysics (displayWidth displayHeight : Nat) (g : Game) : Game :=
  { g with
    objects := fun i =>
      stepBody g.gravityEnabled g.gravitationalForce displayWidth displayHeight
        (g.objects i) }

/-- N iterations of `simulatePhysics`. -/
def simulatePhysicsN (displayWidth displayHeight : Nat) : Nat → Game → Game
  | 0, g => g
  | n + 1, g => simulatePhysicsN displayWidth displayHeight n
      (simulatePhysics displayWidth displayHeight g)

/-- The body of the `Game::randomiseObjects` loop for one object.  `rand()` is
the C library generator, external to the core: it is modelled as an oracle of
non-negative draws, consumed here at fixed indices 0..5 (x position,
y position, x-offset integer, x-offset fraction, y-offset integer, y-offset
fraction); the C++ evaluation order of the `rand()` calls inside one
expression is unspecified, and every such order is covered by some oracle. -/
def randomiseBody (r : Nat → Nat) (displayWidth displayHeight : Nat)
    (gravityEnabled : Bool) (object : RigidBody) : RigidBody :=
  let position := Point2.mk (Number.ofNat (r 0 % displayWidth))
    (Number.ofNat (r 1 % displayHeight))
  let velocity :=
    if gravityEnabled then
      -- If gravity enabled, only affect y
      { object.velocity with
        y := object.velocity.y +
          Number.ofParts (-8 + ((r 2 % 16 : Nat) : Int)) (r 3 % 65536) }
    else
      -- If gravity not enabled, affect both
      object.velocity +
        Vector2.mk (Number.ofParts (-8 + ((r 2 % 16 : Nat) : Int)) (r 3 % 65536))
          (Number.ofParts (-8 + ((r 4 % 16 : Nat) : Int)) (r 5 % 65536))
  { position := position, velocity := velocity }

/-- `Game::randomiseObjects` (the spec's `randomize()`): every body, the player
(index 0) included, gets a fresh position and a velocity perturbation.  Body
`i` consumes oracle draws `6 * i ..`. -/
def randomiseObjects (rand : Nat → Nat) (displayWidth displayHeight : Nat)
    (g : Game) : Game :=
  { g with
    objects := fun i =>
      randomiseBody (fun k => rand (6 * i.val + k)) displayWidth displayHeight
        g.gravityEnabled (g.objects i) }

/-- The button states `Game::updateInput` reads in one frame. -/
structure Buttons where
  bRepeat : Bool
  aHeld : Bool
  downHeld : Bool
  upHeld : Bool
  leftHeld : Bool
  rightHeld : Bool

/-- Replace the player body (`objects[0]`). -/
def setPlayer (g : Game) (body : RigidBody) : Game :=
  { g with objects := fun i => if i = 0 then body else g.objects i }

/-- `Game::updateInput`: with `B` repeating, `A` re-randomises, `Down` toggles
gravity, `Up` inverts the gravity vector, `Left` toggles stat rendering (in
that source order, so the randomisation sees the pre-toggle gravity flag);
otherwise the held directions accumulate a force of magnitude `InputForce`
per axis onto the player's velocity, and `A` zeroes the player's velocity. -/
def updateInput (btn : Buttons) (rand : Nat → Nat)
    (displayWidth displayHeight : Nat) (g : Game) : Game :=
  if btn.bRepeat then
    let g1 := if btn.aHeld then randomiseObjects rand displayWidth displayHeight g else g
    let g2 := if btn.downHeld then { g1 with gravityEnabled := !g1.gravityEnabled } else g1
    let g3 := if btn.upHeld then { g2 with gravitationalForce := -g2.gravitationalForce } else g2
    if btn.leftHeld then { g3 with statRenderingEnabled := !g3.statRenderingEnabled } else g3
  else
    let f0 : Vector2 := ⟨0, 0⟩
    let f1 := if btn.leftHeld then { f0 with x := f0.x + -InputForce } else f0
    let f2 := if btn.rightHeld then { f1 with x := f1.x + InputForce } else f1
    let f3 := if btn.upHeld then { f2 with y := f2.y + -InputForce } else f2
    let f4 := if btn.downHeld then { f3 with y := f3.y + InputForce } else f3
    let player := (g.objects 0)
    let player1 := { player with velocity := player.velocity + f4 }
    let player2 := if btn.aHeld then { player1 with velocity := ⟨0, 0⟩ } else player1
    setPlayer g player2

/-- The `Game` object at process start: `gravityEnabled = false`,
`gravitationalForce = Vector2(0, CoefficientOfGravity)`,
`statRenderingEnabled = true`.  Modelled from the spec: the bodies are created
at process start inside a fixed array; a global object is zero-initialised, so
positions and velocities start at 0 (they are overwritten or perturbed by the
`setup` randomisation before any physics runs). -/
def initialGame : Game :=
  { objects := fun _ => ⟨⟨0, 0⟩, ⟨0, 0⟩⟩
    gravityEnabled := false
    gravitationalForce := ⟨0, CoefficientOfGravity⟩
    statRenderingEnabled := true }

/-- `Game::setup`: randomise all bodies, then put the player at the display
centre with zero velocity. -/
def setup (rand : Nat → Nat) (displayWidth displayHeight : Nat) (g : Game) : Game :=
  let g1 := randomiseObjects rand displayWidth displayHeight g
  setPlayer g1 ⟨⟨Number.ofNat (displayWidth / 2), Number.ofNat (displayHeight / 2)⟩, ⟨0, 0⟩⟩

/-- One iteration of `Game::loop` restricted to the state-mutating calls:
`updateInput(); simulatePhysics();` (rendering reads but does not write the
physics state). -/
def loopStep (btn : Buttons) (rand : Nat → Nat)
    (displayWidth displayHeight : Nat) (g : Game) : Game :=
  simulatePhysics displayWidth displayHeight
    (updateInput btn rand displayWidth displayHeight g)

/-- The reachable `Game` states for a given display size: the state after
`setup` (for any random draws), closed under frames of `loop` (for any
buttons and draws). -/
inductive Reachable (displayWidth displayHeight : Nat) : Game → Prop where
  | setup : ∀ rand : Nat → Nat,
      Reachable displayWidth displayHeight (setup rand displayWidth displayHeight initialGame)
  | loop : ∀ (btn : Buttons) (rand : Nat → Nat) (g : Game),
      Reachable displayWidth displayHeight g →
      Reachable displayWidth displayHeight (loopStep btn rand displayWidth displayHeight g)

/-- Gravity-mode state with every body just past the top bound and moving
upward fast: position `(5, -1)`, velocity `(0, -10)` (internals are the value
times 2^16).  Display 110 × 88. -/
def gameC1 : Game :=
  { objects := fun _ => ⟨⟨⟨327680⟩, ⟨-65536⟩⟩, ⟨⟨0⟩, ⟨-655360⟩⟩⟩
    gravityEnabled := true
    gravitationalForce := ⟨0, CoefficientOfGravity⟩
    statRenderingEnabled := true }

/-- Gravity-mode state with every body at `position.y = displayHeight - 8 + 1
= 81` (display 110 × 88), `velocity = (0, Epsilon)`: the input of the spec's
rest-convergence test. -/
def gameC2 : Game :=
  { objects := fun _ => ⟨⟨⟨327680⟩, ⟨5308416⟩⟩, ⟨⟨0⟩, Number.Epsilon⟩⟩
    gravityEnabled := true
    gravitationalForce := ⟨0, CoefficientOfGravity⟩
    statRenderingEnabled := true }

/-- Gravity-disabled state with every body at `position = (-1, 40)`,
`velocity = (2, 0)`: the input of the spec's elastic-horizontal-bounce test. -/
def gameC3 : Game :=
  { objects := fun _ => ⟨⟨⟨-65536⟩, ⟨2621440⟩⟩, ⟨⟨131072⟩, ⟨0⟩⟩⟩
    gravityEnabled := false
    gravitationalForce := ⟨0, CoefficientOfGravity⟩
    statRenderingEnabled := true }

/-- Random draws under which `setup` places body 1 at position `(5, 5)` with
velocity `(-8, 0)`: draws 6 and 7 (its position) are 5, draw 10 makes its
y-offset `-8 + 8 = 0`, every other draw is 0 (x-offset `-8 + 0`). -/
def randC4 : Nat → Nat := fun k =>
  if k = 6 then 5 else if k = 7 then 5 else if k = 10 then 8 else 0

/-- The reachable state `setup randC4 110 88 initialGame`. -/
def gameC4 : Game := setup randC4 110 88 initialGame

/-- Gravity-disabled state with every body at `position = (40, 40)` (strictly
inside all bounds of a 110 × 88 display) and `velocity = (Epsilon, 0)`. -/
def gameC6 : Game :=
  { objects := fun _ => ⟨⟨⟨2621440⟩, ⟨2621440⟩⟩, ⟨Number.Epsilon, ⟨0⟩⟩⟩
    gravityEnabled := false
    gravitationalForce := ⟨0, CoefficientOfGravity⟩
    statRenderingEnabled := true }

/-- Gravity-mode state with every body at `position = (5, 5)`,
`velocity = (1, -1)`, used to instantiate the determinism claim. -/
def gameC8 : Game :=
  { objects := fun _ => ⟨⟨⟨327680⟩, ⟨327680⟩⟩, ⟨⟨65536⟩, ⟨-65536⟩⟩⟩
    gravityEnabled := true
    gravitationalForce := ⟨0, CoefficientOfGravity⟩
    statRenderingEnabled := true }

@[simp] theorem Number.lt_def (a b : Number) : (a < b) = (a.internal < b.internal) := rfl

@[simp] theorem Number.le_def (a b : Number) : (a ≤ b) = (a.internal ≤ b.internal) := rfl

@[simp] theorem Number.add_internal (a b : Number) :
    (a + b).internal = a.internal + b.internal := rfl

@[simp] theorem Number.neg_internal (a : Number) : (-a).internal = -a.internal := rfl

@[simp] theorem Number.mul_internal (a b : Number) :
    (a * b).internal = a.internal * b.internal / 65536 := rfl

@[simp] theorem Number.ofNat_internal (n : Nat) :
    (Number.ofNat n).internal = (n : Int) * 65536 := rfl

@[simp] theorem Number.ofInt_internal (z : Int) :
    (Number.ofInt z).internal = z * 65536 := rfl

/-- C5: in each step, friction with gravity enabled scales only `velocity.x`
by `CoefficientOfFriction` and leaves `velocity.y` untouched; with gravity
disabled it scales both components by the same coefficient. -/
theorem C5_friction_axes (v : Vector2) :
    (frictionPhase true v).x = v.x * CoefficientOfFriction ∧
    (frictionPhase true v).y = v.y ∧
    (frictionPhase false v).x = v.x * CoefficientOfFriction ∧
    (frictionPhase false v).y = v.y * CoefficientOfFriction :=
  ⟨rfl, rfl, rfl, rfl⟩

/-- C8: `step()` is deterministic — equal starting states give bit-identical
positions and velocities for every body after N steps (the model is a pure
function of the state; the source uses only fixed-point integer arithmetic,
no floating point and no randomness inside `simulatePhysics`). -/
theorem C8_deterministic (displayWidth displayHeight n : Nat) (s t : Game)
    (h : s = t) :
    simulatePhysicsN displayWidth displayHeight n s =
      simulatePhysicsN displayWidth displayHeight n t ∧
    ∀ i : Fin 8,
      ((simulatePhysicsN displayWidth displayHeight n s).objects i).position =
        ((simulatePhysicsN displayWidth displayHeight n t).objects i).position ∧
      ((simulatePhysicsN displayWidth displayHeight n s).objects i).velocity =
        ((simulatePhysicsN displayWidth displayHeight n t).objects i).velocity := by
  subst h
  exact ⟨rfl, fun i => ⟨rfl, rfl⟩⟩

/-- C8 witness: two runs of three steps from the same concrete state agree. -/
theorem C8_deterministic_witness :
    simulatePhysicsN 110 88 3 gameC8 = simulatePhysicsN 110 88 3 gameC8 :=
  (C8_deterministic 110 88 3 gameC8 gameC8 rfl).1

/-- C9: `fromSigned`/`fromUnsigned` reinterpret the same bit pattern: for
every `Number` in the `int32_t` range, `fromUnsigned (fromSigned v) = v`, and
`fromSigned v` carries the same 32-bit pattern (the same residue modulo 2^32)
as `v`, as an unsigned value in `[0, 2^32)`. -/
theorem C9_reinterpretation (v : Number)
    (h1 : -2147483648 ≤ v.internal) (h2 : v.internal < 2147483648) :
    fromUnsigned (fromSigned v) = v ∧
    (fromSigned v).internal % 4294967296 = v.internal % 4294967296 ∧
    0 ≤ (fromSigned v).internal ∧ (fromSigned v).internal < 4294967296 := by
  obtain ⟨i⟩ := v
  simp only [fromSigned, fromUnsigned, Number.mk.injEq] at *
  refine ⟨?_, by omega, by omega, by omega⟩
  split <;> omega

/-- C9 witness: the round trip at the negative value with internal `-5`. -/
theorem C9_reinterpretation_witness :
    fromUnsigned (fromSigned ⟨-5⟩) = (⟨-5⟩ : Number) ∧
    (fromSigned (⟨-5⟩ : Number)).internal % 4294967296 = (-5 : Int) % 4294967296 :=
  ⟨(C9_reinterpretation ⟨-5⟩ (by decide) (by decide)).1,
   (C9_reinterpretation ⟨-5⟩ (by decide) (by decide)).2.1⟩

/-- C10: `simulatePhysics` (the spec's `step()`) changes no world-level state:
`gravityEnabled`, `gravitationalForce` and `statRenderingEnabled` are the same
before and after, for every starting state. -/
theorem C10_frame (displayWidth displayHeight : Nat) (g : Game) :
    (simulatePhysics displayWidth displayHeight g).gravityEnabled = g.gravityEnabled ∧
    (simulatePhysics displayWidth displayHeight g).gravitationalForce = g.gravitationalForce ∧
    (simulatePhysics displayWidth displayHeight g).statRenderingEnabled = g.statRenderingEnabled :=
  ⟨rfl, rfl, rfl⟩

/-- C1 counterexample: with gravity enabled and the body just past the top
bound moving upward fast, the velocity at the boundary test is `-9.5`
(internal `-622592`), whose magnitude exceeds `RestitutionThreshold`; the
claim demands `velocity.y = -velocity.y * CoefficientOfRestitution` there, but
the source compares the signed value (`velocity.y > RestitutionThreshold`) and
zeroes the velocity instead. -/
theorem C1_counterexample :
    RestitutionThreshold < -(⟨-622592⟩ : Number) ∧
    ((simulatePhysics 110 88 gameC1).objects 0).velocity.y = (0 : Number) ∧
    ((simulatePhysics 110 88 gameC1).objects 0).velocity.y ≠
      (-(⟨-622592⟩ : Number)) * CoefficientOfRestitution := by
  decide

/-- C2 counterexample: at `position.y = 88 - 8 + 1`, `velocity.y = Epsilon`,
gravity enabled, one step leaves `velocity.y` at internal `-9831`
(≈ `-0.15`), not `0`: gravity is added to the velocity before the boundary
test, so the tested velocity `0.5 + Epsilon` exceeds `RestitutionThreshold`
and is damped, not zeroed. -/
theorem C2_counterexample :
    ((simulatePhysics 110 88 gameC2).objects 0).velocity.y = (⟨-9831⟩ : Number) ∧
    ((simulatePhysics 110 88 gameC2).objects 0).velocity.y ≠ (0 : Number) := by
  decide

/-- C3 counterexample: at `position.x = -1`, `velocity.x = 2`, one step gives
`position.x = velocity.x = -124518/65536 ≈ -1.9`, not `position.x = 0` and
`velocity.x = -2`: friction damps the velocity to `1.9` before the bounce
negates it, and the final `position += velocity` moves the clamped position
off the bound again. -/
theorem C3_counterexample :
    ((simulatePhysics 110 88 gameC3).objects 0).position.x ≠ (0 : Number) ∧
    ((simulatePhysics 110 88 gameC3).objects 0).velocity.x ≠ (⟨-131072⟩ : Number) := by
  decide

/-- C4 counterexample: `gameC4` is reachable (it is `setup` under concrete
random draws; body 1 gets position `(5, 5)` and velocity `(-8, 0)`), yet after
one `step()` body 1 sits at `position.x ≈ -2.6 < 0`: the boundary test ran
before the final `position += velocity`, and a fast body leaves the screen. -/
theorem C4_counterexample :
    Reachable 110 88 gameC4 ∧
    ¬ (∀ i : Fin 8,
        (0 : Number) ≤ ((simulatePhysics 110 88 gameC4).objects i).position.x ∧
        ((simulatePhysics 110 88 gameC4).objects i).position.x ≤ Number.ofInt 102) :=
  ⟨Reachable.setup randC4, by decide⟩

/-- C6 counterexample: without gravity, a body with `velocity = (Epsilon, 0)`
strictly inside the bounds (position `(40, 40)` on a 110 × 88 display, and
still strictly inside after each step, so no boundary is ever met) reaches
`velocity.x = 0` after one step; the second step leaves the magnitude at `0`,
so repeated steps do not strictly decrease each component's magnitude. -/
theorem C6_counterexample :
    ((0 : Number) < (gameC6.objects 0).position.x ∧
      (gameC6.objects 0).position.x < Number.ofInt 102 ∧
      (0 : Number) < (gameC6.objects 0).position.y ∧
      (gameC6.objects 0).position.y < Number.ofInt 80) ∧
    (let g1 := simulatePhysics 110 88 gameC6
     let g2 := simulatePhysics 110 88 g1
     ((0 : Number) < (g1.objects 0).position.x ∧
       (g1.objects 0).position.x < Number.ofInt 102 ∧
       (0 : Number) < (g1.objects 0).position.y ∧
       (g1.objects 0).position.y < Number.ofInt 80) ∧
     (g1.objects 0).velocity.x = (0 : Number) ∧
     ¬ ((g2.objects 0).velocity.x.internal.natAbs <
         (g1.objects 0).velocity.x.internal.natAbs)) := by
  decide

@[simp] theorem Number.zero_internal : (0 : Number).internal = 0 := by decide

@[simp] theorem Number.Epsilon_internal : Number.Epsilon.internal = 1 := rfl

@[simp] theorem CoefficientOfFriction_internal : CoefficientOfFriction.internal = 62259 := rfl

@[simp] theorem CoefficientOfGravity_internal : CoefficientOfGravity.internal = 32768 := rfl

@[simp] theorem CoefficientOfRestitution_internal : CoefficientOfRestitution.internal = 19660 := rfl

@[simp] theorem RestitutionThreshold_internal : RestitutionThreshold.internal = 16 := by decide

@[simp] theorem Vector2.add_x (a b : Vector2) : (a + b).x = a.x + b.x := rfl

@[simp] theorem Vector2.add_y (a b : Vector2) : (a + b).y = a.y + b.y := rfl

@[simp] theorem Vector2.neg_x (a : Vector2) : (-a).x = -a.x := rfl

@[simp] theorem Vector2.neg_y (a : Vector2) : (-a).y = -a.y := rfl

@[simp] theorem Vector2.smul_x (a : Vector2) (s : Number) : (a * s).x = a.x * s := rfl

@[simp] theorem Vector2.smul_y (a : Vector2) (s : Number) : (a * s).y = a.y * s := rfl

@[simp] theorem Point2.addVec_x (p : Point2) (v : Vector2) : (p + v).x = p.x + v.x := rfl

@[simp] theorem Point2.addVec_y (p : Point2) (v : Vector2) : (p + v).y = p.y + v.y := rfl

/-- C1 (amended): in gravity-enabled mode, when the position is past the top
bound (`position.y < 0`) or the bottom bound (`position.y > displayHeight - 8`)
at the boundary test, the position is clamped to that bound and then: if
`velocity.y` — as a signed value, not its magnitude — exceeds
`RestitutionThreshold`, `velocity.y` becomes
`(-velocity.y) * CoefficientOfRestitution`; otherwise (in particular for any
upward, negative `velocity.y`) it becomes exactly `0` — the same rule at both
bounds, reading `velocity.y` at the moment of the boundary test. -/
theorem C1_amended (displayHeight : Nat) (p : Point2) (v : Vector2)
    (hH : 8 ≤ displayHeight) :
    (p.y < 0 →
      collideYGravity displayHeight p v =
        ({ p with y := 0 },
         { v with y := if RestitutionThreshold < v.y
             then (-v.y) * CoefficientOfRestitution else 0 })) ∧
    (0 ≤ p.y → Number.ofInt ((displayHeight : Int) - 8) < p.y →
      collideYGravity displayHeight p v =
        ({ p with y := Number.ofInt ((displayHeight : Int) - 8) },
         { v with y := if RestitutionThreshold < v.y
             then (-v.y) * CoefficientOfRestitution else 0 })) := by
  obtain ⟨px, py⟩ := p
  obtain ⟨vx, vy⟩ := v
  constructor
  · intro h
    simp only [Number.lt_def] at h
    simp only [collideYGravity]
    split_ifs <;>
      first
      | rfl
      | (exfalso
         simp only [Number.lt_def, Number.le_def, Number.ofInt_internal,
           Number.zero_internal] at *
         omega)
  · intro h0 h
    simp only [Number.le_def, Number.zero_internal] at h0
    simp only [Number.lt_def, Number.ofInt_internal] at h
    simp only [collideYGravity]
    split_ifs <;>
      first
      | rfl
      | (exfalso
         simp only [Number.lt_def, Number.le_def, Number.ofInt_internal,
           Number.zero_internal] at *
         omega)

/-- C1 witness: the amended rule at the top bound of an 88-pixel display, for
a body at `position.y = -1` with tested `velocity.y = -9.5` (zeroed, since the
signed value does not exceed the threshold). -/
theorem C1_amended_witness :
    8 ≤ 88 ∧
    collideYGravity 88 ⟨⟨327680⟩, ⟨-65536⟩⟩ ⟨⟨0⟩, ⟨-622592⟩⟩ =
      (⟨⟨327680⟩, (0 : Number)⟩, ⟨⟨0⟩, (0 : Number)⟩) := by
  refine ⟨by omega, ?_⟩
  have h := (C1_amended 88 ⟨⟨327680⟩, ⟨-65536⟩⟩ ⟨⟨0⟩, ⟨-622592⟩⟩ (by omega)).1 (by decide)
  rw [h]
  decide

/-- C2 (amended): for a body at `position.y = displayHeight - 8 + 1` with
`velocity.y = Epsilon`, gravity enabled (force `(0, CoefficientOfGravity)`),
one `step()` yields `velocity.y` with internal value `-9831`
(`= -(Epsilon + CoefficientOfGravity) * CoefficientOfRestitution` in fixed
point, ≈ `-0.15`), not `0`: gravity is added before the boundary test, so the
tested velocity exceeds `RestitutionThreshold` and is damped. -/
theorem C2_amended (displayWidth displayHeight : Nat) (px vx : Number)
    (hH : 8 ≤ displayHeight) :
    (stepBody true ⟨0, CoefficientOfGravity⟩ displayWidth displayHeight
        ⟨⟨px, Number.ofInt ((displayHeight : Int) - 7)⟩, ⟨vx, Number.Epsilon⟩⟩).velocity.y =
      (⟨-9831⟩ : Number) := by
  simp only [stepBody, gravityPhase, frictionPhase, collideX, collideYGravity, if_true]
  split_ifs <;>
    first
    | (dsimp only [Vector2.add_x, Vector2.add_y]; decide)
    | (exfalso
       simp_all only [Number.lt_def, Number.le_def, Number.ofInt_internal,
         Number.add_internal, Number.neg_internal, Number.mul_internal,
         Number.zero_internal, Number.Epsilon_internal, Vector2.add_x, Vector2.add_y,
         CoefficientOfGravity_internal, CoefficientOfRestitution_internal,
         RestitutionThreshold_internal]
       omega)

/-- C2 witness: the amended rest-convergence behaviour at display height 88. -/
theorem C2_amended_witness :
    8 ≤ 88 ∧
    (stepBody true ⟨0, CoefficientOfGravity⟩ 110 88
        ⟨⟨⟨327680⟩, Number.ofInt ((88 : Int) - 7)⟩, ⟨⟨0⟩, Number.Epsilon⟩⟩).velocity.y =
      (⟨-9831⟩ : Number) :=
  ⟨by omega, C2_amended 110 88 ⟨327680⟩ ⟨0⟩ (by omega)⟩

theorem collideYGravity_fst_x (displayHeight : Nat) (p : Point2) (v : Vector2) :
    (collideYGravity displayHeight p v).1.x = p.x := by
  unfold collideYGravity; split_ifs <;> rfl

theorem collideYGravity_snd_x (displayHeight : Nat) (p : Point2) (v : Vector2) :
    (collideYGravity displayHeight p v).2.x = v.x := by
  unfold collideYGravity; split_ifs <;> rfl

theorem collideYPlain_fst_x (displayHeight : Nat) (p : Point2) (v : Vector2) :
    (collideYPlain displayHeight p v).1.x = p.x := by
  unfold collideYPlain; split_ifs <;> rfl

theorem collideYPlain_snd_x (displayHeight : Nat) (p : Point2) (v : Vector2) :
    (collideYPlain displayHeight p v).2.x = v.x := by
  unfold collideYPlain; split_ifs <;> rfl

/-- C3 (amended): for a body with `position.x = -1` and `velocity.x = 2`, one
`step()` yields `velocity.x` and `position.x` both with internal value
`-124518` (`= -(2 * CoefficientOfFriction)`, about `-1.9`), regardless of
whether gravity is enabled: friction damps the velocity to `1.9` before the
bounce negates it (so the result is not `-2`), the position is clamped to `0`
at the collision stage, and the final `position += velocity` then moves it to
`-1.9` (so the post-step position is not `0`). -/
theorem C3_amended (gravityEnabled : Bool) (c : Number)
    (displayWidth displayHeight : Nat) (py vy : Number) (hW : 8 ≤ displayWidth) :
    ((stepBody gravityEnabled ⟨0, c⟩ displayWidth displayHeight
        ⟨⟨⟨-65536⟩, py⟩, ⟨⟨131072⟩, vy⟩⟩).velocity.x = (⟨-124518⟩ : Number)) ∧
    ((stepBody gravityEnabled ⟨0, c⟩ displayWidth displayHeight
        ⟨⟨⟨-65536⟩, py⟩, ⟨⟨131072⟩, vy⟩⟩).position.x = (⟨-124518⟩ : Number)) := by
  cases gravityEnabled <;>
    constructor <;>
      (simp only [stepBody, gravityPhase, frictionPhase, if_true, Bool.false_eq_true,
         if_false, Point2.addVec_x, collideYGravity_fst_x, collideYGravity_snd_x,
         collideYPlain_fst_x, collideYPlain_snd_x]
       simp only [collideX]
       split_ifs <;>
         first
         | (dsimp only [Vector2.add_x, Vector2.smul_x]; decide)
         | (exfalso
            simp_all only [Number.lt_def, Number.le_def, Number.ofInt_internal,
              Number.zero_internal, Number.add_internal, Number.neg_internal,
              Number.mul_internal, Vector2.add_x, Vector2.smul_x,
              CoefficientOfFriction_internal]
            omega))

/-- C3 witness: the amended elastic-bounce behaviour at display 110 by 88,
with gravity disabled and the body at `position = (-1, 40)`,
`velocity = (2, 0)`. -/
theorem C3_amended_witness :
    8 ≤ 110 ∧
    ((stepBody false ⟨0, CoefficientOfGravity⟩ 110 88
        ⟨⟨⟨-65536⟩, ⟨2621440⟩⟩, ⟨⟨131072⟩, ⟨0⟩⟩⟩).velocity.x = (⟨-124518⟩ : Number)) ∧
    ((stepBody false ⟨0, CoefficientOfGravity⟩ 110 88
        ⟨⟨⟨-65536⟩, ⟨2621440⟩⟩, ⟨⟨131072⟩, ⟨0⟩⟩⟩).position.x = (⟨-124518⟩ : Number)) :=
  ⟨by omega,
   (C3_amended false CoefficientOfGravity 110 88 ⟨2621440⟩ ⟨0⟩ (by omega)).1,
   (C3_amended false CoefficientOfGravity 110 88 ⟨2621440⟩ ⟨0⟩ (by omega)).2⟩

/-- C4 (amended): at the end of the boundary-collision phase of each step —
before the final `position += velocity` integration — every body's
`position.x` lies in `[0, displayWidth - 8]`, and in gravity-disabled mode
`position.y` lies in `[0, displayHeight - 8]`; the bound does not survive the
final integration, which can move a fast body outside again (see the
counterexample). -/
theorem C4_amended (displayWidth displayHeight : Nat) (p : Point2) (v : Vector2)
    (hW : 8 ≤ displayWidth) :
    ((0 : Number) ≤ (collideX displayWidth p v).1.x ∧
      (collideX displayWidth p v).1.x ≤ Number.ofInt ((displayWidth : Int) - 8)) ∧
    (8 ≤ displayHeight →
      (0 : Number) ≤ (collideYPlain displayHeight p v).1.y ∧
      (collideYPlain displayHeight p v).1.y ≤ Number.ofInt ((displayHeight : Int) - 8)) := by
  obtain ⟨px, py⟩ := p
  obtain ⟨vx, vy⟩ := v
  refine ⟨?_, fun hH => ?_⟩ <;>
    (simp only [collideX, collideYPlain]
     split_ifs <;>
       (simp_all only [Number.lt_def, Number.le_def, Number.ofInt_internal,
          Number.zero_internal]
        constructor <;> omega))

/-- C4 witness: the collision-phase containment at display 110 × 88 for a body
past the right bound. -/
theorem C4_amended_witness :
    8 ≤ 110 ∧
    ((0 : Number) ≤ (collideX 110 ⟨⟨7208960⟩, ⟨0⟩⟩ ⟨⟨65536⟩, ⟨0⟩⟩).1.x ∧
      (collideX 110 ⟨⟨7208960⟩, ⟨0⟩⟩ ⟨⟨65536⟩, ⟨0⟩⟩).1.x ≤ Number.ofInt ((110 : Int) - 8)) ∧
    ((0 : Number) ≤ (collideYPlain 88 ⟨⟨7208960⟩, ⟨0⟩⟩ ⟨⟨65536⟩, ⟨0⟩⟩).1.y ∧
      (collideYPlain 88 ⟨⟨7208960⟩, ⟨0⟩⟩ ⟨⟨65536⟩, ⟨0⟩⟩).1.y ≤ Number.ofInt ((88 : Int) - 8)) :=
  ⟨by omega,
   (C4_amended 110 88 ⟨⟨7208960⟩, ⟨0⟩⟩ ⟨⟨65536⟩, ⟨0⟩⟩ (by omega)).1,
   (C4_amended 110 88 ⟨⟨7208960⟩, ⟨0⟩⟩ ⟨⟨65536⟩, ⟨0⟩⟩ (by omega)).2 (by omega)⟩

/-- C6 (amended): with no gravity and no boundary contact, each step scales
each velocity component by `CoefficientOfFriction`; this never increases a
component's magnitude and never reverses its sign, and the decrease is strict
while the component is positive or at most `-20 * Epsilon` — but a component
equal to `0`, or negative with internal value in `[-19, -1]`, persists
unchanged (the floor rounding of fixed-point multiplication stalls there), so
the magnitude does not strictly decrease at every step. -/
theorem C6_amended (w : Vector2) :
    ((0 ≤ w.x → 0 ≤ (frictionPhase false w).x ∧ (frictionPhase false w).x ≤ w.x) ∧
     (w.x ≤ 0 → w.x ≤ (frictionPhase false w).x ∧ (frictionPhase false w).x ≤ 0) ∧
     (0 < w.x → (frictionPhase false w).x < w.x) ∧
     (w.x.internal ≤ -20 → w.x < (frictionPhase false w).x)) ∧
    ((0 ≤ w.y → 0 ≤ (frictionPhase false w).y ∧ (frictionPhase false w).y ≤ w.y) ∧
     (w.y ≤ 0 → w.y ≤ (frictionPhase false w).y ∧ (frictionPhase false w).y ≤ 0) ∧
     (0 < w.y → (frictionPhase false w).y < w.y) ∧
     (w.y.internal ≤ -20 → w.y < (frictionPhase false w).y)) := by
  simp only [frictionPhase, Bool.false_eq_true, if_false, Vector2.smul_x,
    Vector2.smul_y, Number.lt_def, Number.le_def, Number.mul_internal,
    Number.zero_internal, CoefficientOfFriction_internal]
  omega

/-- C6 witness: a positive component (`1`) strictly decreases under friction;
a negative component at `-20` (internal `-1310720`) also strictly decreases in
magnitude. -/
theorem C6_amended_witness :
    ((0 : Number) < (⟨65536⟩ : Number) ∧
      (frictionPhase false ⟨⟨65536⟩, ⟨-1310720⟩⟩).x < (⟨65536⟩ : Number)) ∧
    ((⟨-1310720⟩ : Number).internal ≤ -20 ∧
      (⟨-1310720⟩ : Number) < (frictionPhase false ⟨⟨65536⟩, ⟨-1310720⟩⟩).y) :=
  ⟨⟨by decide, (C6_amended ⟨⟨65536⟩, ⟨-1310720⟩⟩).1.2.2.1 (by decide)⟩,
   ⟨by decide, (C6_amended ⟨⟨65536⟩, ⟨-1310720⟩⟩).2.2.2.2 (by decide)⟩⟩

/-- C7: after `randomiseObjects`, every body's position — the player body at
index 0 included, since the loop starts at 0 — lies in
`[0, displayWidth) × [0, displayHeight)`, and the velocity is perturbed by a
`Number(-8 + rand % 16, rand % 2^16)` offset on only the y component when
gravity is enabled, and on both components when gravity is disabled. -/
theorem C7_randomise (rand : Nat → Nat) (displayWidth displayHeight : Nat)
    (g : Game) (i : Fin 8) (hW : 0 < displayWidth) (hH : 0 < displayHeight) :
    ((0 : Number) ≤
        ((randomiseObjects rand displayWidth displayHeight g).objects i).position.x ∧
      ((randomiseObjects rand displayWidth displayHeight g).objects i).position.x <
        Number.ofNat displayWidth ∧
      (0 : Number) ≤
        ((randomiseObjects rand displayWidth displayHeight g).objects i).position.y ∧
      ((randomiseObjects rand displayWidth displayHeight g).objects i).position.y <
        Number.ofNat displayHeight) ∧
    (g.gravityEnabled = true →
      ((randomiseObjects rand displayWidth displayHeight g).objects i).velocity.x =
        (g.objects i).velocity.x ∧
      ((randomiseObjects rand displayWidth displayHeight g).objects i).velocity.y =
        (g.objects i).velocity.y +
          Number.ofParts (-8 + ((rand (6 * i.val + 2) % 16 : Nat) : Int))
            (rand (6 * i.val + 3) % 65536)) ∧
    (g.gravityEnabled = false →
      ((randomiseObjects rand displayWidth displayHeight g).objects i).velocity.x =
        (g.objects i).velocity.x +
          Number.ofParts (-8 + ((rand (6 * i.val + 2) % 16 : Nat) : Int))
            (rand (6 * i.val + 3) % 65536) ∧
      ((randomiseObjects rand displayWidth displayHeight g).objects i).velocity.y =
        (g.objects i).velocity.y +
          Number.ofParts (-8 + ((rand (6 * i.val + 4) % 16 : Nat) : Int))
            (rand (6 * i.val + 5) % 65536)) := by
  refine ⟨?_, fun h => ?_, fun h => ?_⟩
  · have hx : rand (6 * i.val + 0) % displayWidth < displayWidth :=
      Nat.mod_lt _ hW
    have hy : rand (6 * i.val + 1) % displayHeight < displayHeight :=
      Nat.mod_lt _ hH
    simp only [randomiseObjects, randomiseBody, Number.le_def, Number.lt_def,
      Number.zero_internal, Number.ofNat_internal]
    refine ⟨?_, ?_, ?_, ?_⟩ <;> omega
  · constructor <;> simp [randomiseObjects, randomiseBody, h]
  · constructor <;> simp [randomiseObjects, randomiseBody, h]

/-- C7 witness: the position bounds at display 110 × 88 for body 0 of the
initial state under the draws `rand k = k + 3`. -/
theorem C7_randomise_witness :
    ((0 : Nat) < 110 ∧ (0 : Nat) < 88) ∧
    ((0 : Number) ≤ ((randomiseObjects (fun k => k + 3) 110 88 initialGame).objects 0).position.x ∧
      ((randomiseObjects (fun k => k + 3) 110 88 initialGame).objects 0).position.x <
        Number.ofNat 110 ∧
      (0 : Number) ≤ ((randomiseObjects (fun k => k + 3) 110 88 initialGame).objects 0).position.y ∧
      ((randomiseObjects (fun k => k + 3) 110 88 initialGame).objects 0).position.y <
        Number.ofNat 88) :=
  ⟨⟨by omega, by omega⟩,
   (C7_randomise (fun k => k + 3) 110 88 initialGame 0 (by omega) (by omega)).1⟩
